import Mathlib

/-!
Shallow embedding of `analizador.py`: a heuristic KPI-extraction engine for
heterogeneous spreadsheet tables.  Tables are headers plus positionally
aligned rows of mixed cells; numeric values are modelled by `ℚ` (Python
floats idealised as exact rationals), calendar dates by `ℤ` day numbers.
Pandas per-cell coercions (`pd.to_numeric` / `pd.to_datetime` with
`errors="coerce"`) are modelled by `Option`-valued functions; a missing
value (NaN) is the `Cell.blank` constructor.  Python `str.lower` is
modelled on ASCII plus the Latin-1 uppercase range, which covers every
keyword the source uses.
-/

attribute [local semireducible] Rat.add Rat.sub Rat.mul Rat.inv

/-- ASCII/Latin-1 model of Python `str.lower` on one character. -/
def lowerChar (c : Char) : Char :=
  let v := c.toNat
  if (65 ≤ v ∧ v ≤ 90) ∨ (192 ≤ v ∧ v ≤ 222 ∧ v ≠ 215) then Char.ofNat (v + 32) else c

def isSpaceChar (c : Char) : Bool :=
  c == ' ' || c == '\t' || c == '\n' || c == '\r'

/-- Python `str.strip` on a character list. -/
def trimChars (l : List Char) : List Char :=
  ((l.dropWhile isSpaceChar).reverse.dropWhile isSpaceChar).reverse

def toLowerStr (s : String) : String :=
  String.mk (s.data.map lowerChar)

/-- `_norm`: `str(s).strip().lower()`. -/
def pyNorm (s : String) : String :=
  toLowerStr (String.mk (trimChars s.data))

/-- Substring containment on character lists (Python `in`, pandas
`str.contains` with a literal pattern). -/
def hasSub (pat : List Char) : List Char → Bool
  | [] => pat.isEmpty
  | c :: rest => pat.isPrefixOf (c :: rest) || hasSub pat rest

def containsStr (s pat : String) : Bool :=
  hasSub pat.data s.data

/-- `str.contains(pat, case=False)`: both sides lowercased first. -/
def containsCI (s pat : String) : Bool :=
  containsStr (toLowerStr s) (toLowerStr pat)

/-- One spreadsheet cell: blank (pandas NaN), a number, free text, or a
calendar date (days since an epoch). -/
inductive Cell where
  | blank : Cell
  | num : ℚ → Cell
  | str : String → Cell
  | date : ℤ → Cell
deriving DecidableEq

def isMissing : Cell → Bool
  | Cell.blank => true
  | _ => false

def allDigits (l : List Char) : Bool :=
  l.all (fun c => c.isDigit)

def digitsToNat (l : List Char) : Nat :=
  l.foldl (fun acc c => acc * 10 + (c.toNat - 48)) 0

/-- Decimal-numeral model of pandas numeric text parsing: optional sign,
digits, optional fractional part. -/
def parseRatDigits (l : List Char) : Option ℚ :=
  match l.splitOn '.' with
  | [ip] => if ip ≠ [] ∧ allDigits ip then some (digitsToNat ip : ℚ) else none
  | [ip, fp] =>
      if (ip ≠ [] ∨ fp ≠ []) ∧ allDigits ip ∧ allDigits fp then
        some ((digitsToNat ip : ℚ) + (digitsToNat fp : ℚ) / (10 : ℚ) ^ fp.length)
      else none
  | _ => none

def parseRat (s : String) : Option ℚ :=
  match trimChars s.data with
  | '-' :: rest => (parseRatDigits rest).map (fun q => -q)
  | '+' :: rest => parseRatDigits rest
  | l => parseRatDigits l

/-- `pd.to_numeric(col, errors="coerce")` on one cell: unparseable cells
degrade to missing (`none`), never fail. -/
def toNumeric : Cell → Option ℚ
  | Cell.num q => some q
  | Cell.str s => parseRat s
  | _ => none

/-- `pd.to_datetime(col, errors="coerce")` on one cell: the model carries
dates as day numbers; anything else degrades to missing. -/
def toDate : Cell → Option ℤ
  | Cell.date d => some d
  | _ => none

/-- `astype(str)` on one cell.  Pandas renders a missing value as the
literal string "nan", which is why `na=False` downstream never fires. -/
def strCell : Cell → String
  | Cell.blank => "nan"
  | Cell.num q => toString q
  | Cell.str s => s
  | Cell.date d => toString d

/-- A DataFrame: named columns over positionally aligned rows.  A row is a
list of cells aligned with `headers`. -/
structure Table where
  headers : List String
  rows : List (List Cell)
deriving DecidableEq

/-- `df[c]`: the column labelled `c` (first occurrence), as a cell list. -/
def getCol (df : Table) (c : String) : List Cell :=
  match df.headers.findIdx? (fun h => h == c) with
  | some i => df.rows.map (fun r => r.getD i Cell.blank)
  | none => []

/-- `df.empty`: true when either axis has length zero. -/
def tableEmpty (df : Table) : Bool :=
  df.rows.isEmpty || df.headers.isEmpty

def ING_HINTS : List String :=
  ["monto", "neto", "total", "importe", "facturacion", "ingreso", "venta", "principal"]

def COST_HINTS : List String :=
  ["costo", "costos", "gasto", "gastos", "insumo", "insumos",
   "repuesto", "repuestos", "pintura", "material", "materiales",
   "mano de obra", "mo", "imposicion", "imposiciones",
   "arriendo", "admin", "administracion", "equipo de planta", "generales",
   "financiero", "financieros", "interes", "intereses"]

/-- `_find_numeric_cols`: columns whose normalised header contains some
keyword and whose values parse numerically at least once. -/
def find_numeric_cols (df : Table) (keywords : List String) : List String :=
  df.headers.filter (fun c =>
    keywords.any (fun k => containsStr (pyNorm c) k) &&
    ((getCol df c).countP (fun cell => (toNumeric cell).isSome) > 0))

/-- `nunique(dropna=True)`: distinct non-missing values. -/
def nunique (cells : List Cell) : Nat :=
  ((cells.filter (fun c => !isMissing c)).dedup).length

def ID_KEYS : List String :=
  ["patente", "orden", "oc", "folio", "documento", "presupuesto", "id", "nro", "número", "num"]

/-- The keyword-major scan of `_count_services`: first keyword that has a
matching column wins, the matching column being the first in table order. -/
def findIdKey : List String → Table → Option String
  | [], _ => none
  | k :: ks, df =>
      match df.headers.find? (fun c => containsStr (pyNorm c) k) with
      | some c => some c
      | none => findIdKey ks df

/-- The mask `s > 0` on one coerced cell: missing never counts. -/
def posNum (cell : Cell) : Bool :=
  match toNumeric cell with
  | some q => decide (0 < q)
  | none => false

/-- `_count_services`. -/
def count_services (df : Table) : Nat :=
  match findIdKey ID_KEYS df with
  | some c => nunique (getCol df c)
  | none =>
      match find_numeric_cols df ING_HINTS with
      | [] => 0
      | c :: _ => (getCol df c).countP posNum

/-- `_apply_client_filter`: keep rows whose client cell's textual
representation contains the substring case-insensitively.  Note that the
cells go through `astype(str)` first, so a missing cell is matched as the
string "nan". -/
def apply_client_filter (df : Table) (client_substr : String) : Table :=
  if client_substr.isEmpty then df
  else
    match df.headers.findIdx? (fun c => containsStr (pyNorm c) "cliente") with
    | none => df
    | some i =>
        Table.mk df.headers
          (df.rows.filter (fun r => containsCI (strCell (r.getD i Cell.blank)) client_substr))

def START_KEYS : List String :=
  ["fecha ingreso", "ingreso", "recepcion", "entrada"]

def END_KEYS : List String :=
  ["fecha salida", "salida", "entrega", "egreso", "termino", "término"]

/-- First column whose normalised header contains a start keyword
(`_lead_time_days` single pass, first match in column order). -/
def startCol (df : Table) : Option String :=
  df.headers.find? (fun c => START_KEYS.any (fun k => containsStr (pyNorm c) k))

def endCol (df : Table) : Option String :=
  df.headers.find? (fun c => END_KEYS.any (fun k => containsStr (pyNorm c) k))

/-- `(e - s).dt.days`, rowwise: missing on either side gives NaN. -/
def deltaSeries (s e : List Cell) : List (Option ℤ) :=
  List.zipWith (fun a b =>
    match toDate a, toDate b with
    | some da, some db => some (db - da)
    | _, _ => none) s e

/-- `d[(d.notna()) & (d >= 0) & (d < 365)]`. -/
def qualifyingDeltas (df : Table) (s e : String) : List ℤ :=
  ((deltaSeries (getCol df s) (getCol df e)).filterMap id).filter
    (fun d => decide (0 ≤ d) && decide (d < 365))

def intToQ (z : ℤ) : ℚ := (z : ℚ)

/-- Insertion into a `≤`-sorted rational list. -/
def insertSorted (x : ℚ) : List ℚ → List ℚ
  | [] => [x]
  | y :: ys => if x ≤ y then x :: y :: ys else y :: insertSorted x ys

def sortQ (l : List ℚ) : List ℚ :=
  l.foldr insertSorted []

/-- Pandas `Series.median`: middle element, or mean of the two middle
elements for an even count. -/
def medianQ (l : List ℚ) : ℚ :=
  let s := sortQ l
  if l.length % 2 = 1 then s.getD (l.length / 2) 0
  else (s.getD (l.length / 2 - 1) 0 + s.getD (l.length / 2) 0) / 2

/-- `_lead_time_days`. -/
def lead_time_days (df : Table) : Option ℚ :=
  match startCol df, endCol df with
  | some s, some e =>
      let d := qualifyingDeltas df s e
      if 3 ≤ d.length then some (medianQ (d.map intToQ)) else none
  | _, _ => none

/-- Round-half-to-even to an integer (Python `round` on exact values). -/
def roundHalfEven (q : ℚ) : ℤ :=
  let f := q.floor
  let r := q - (f : ℚ)
  if r < 1 / 2 then f
  else if 1 / 2 < r then f + 1
  else if f % 2 = 0 then f else f + 1

/-- Python `round(x, 2)` idealised on exact rationals. -/
def round2 (q : ℚ) : ℚ :=
  (roundHalfEven (q * 100) : ℚ) / 100

/-- First column whose normalised header contains "estado" or
"resultado". -/
def estadoCol (df : Table) : Option String :=
  df.headers.find? (fun c =>
    containsStr (pyNorm c) "estado" || containsStr (pyNorm c) "resultado")

/-- The conversion block of `analizar_datos_taller` on one sheet: `none`
means the running value is not overwritten. -/
def conversionOfTable (df : Table) : Option ℚ :=
  match estadoCol df with
  | none => none
  | some c =>
      let est := (getCol df c).map (fun cell => toLowerStr (strCell cell))
      let gan := est.countP (fun s => containsStr s "ganad")
      let per := est.countP (fun s => containsStr s "perdid")
      let env := est.countP (fun s => containsStr s "enviad")
      let den := gan + per + env
      if den > 0 then some (round2 ((gan : ℚ) / (den : ℚ) * 100)) else none

/-- Column sum of coerced numeric values, missing cells contributing 0
(pandas column `sum` with default `skipna`). -/
def colNumSum (df : Table) (c : String) : ℚ :=
  ((getCol df c).map (fun cell => (toNumeric cell).getD 0)).sum

def sumCols (df : Table) (cols : List String) : ℚ :=
  (cols.map (colNumSum df)).sum

structure SheetInfo where
  filas : Nat
  ing_cols : List String
  cost_cols : List String
  ingresos_hoja : ℚ
  costos_hoja : ℚ
deriving DecidableEq

structure Reporte where
  ingresos : ℚ
  costos : ℚ
  margen : ℚ
  margen_pct : ℚ
  servicios : Nat
  ticket_promedio : Option ℚ
  conversion_pct : Option ℚ
  lead_time_mediano_dias : Option ℚ
  hojas : List (String × SheetInfo)
deriving DecidableEq

/-- `if v is not None: field = v`: overwrite the running value only when
the sheet produced one. -/
def overwriteOpt (o acc : Option ℚ) : Option ℚ :=
  match o with
  | some v => some v
  | none => acc

structure AggState where
  total_ing : ℚ
  total_cost : ℚ
  total_services : Nat
  conversion : Option ℚ
  lead_time : Option ℚ
  hojas : List (String × SheetInfo)
deriving DecidableEq

def initState : AggState :=
  AggState.mk 0 0 0 none none []

/-- One iteration of the sheet loop of `analizar_datos_taller`.  A `none`
sheet or an empty table is skipped. -/
def procesarHoja (cliente : String) (st : AggState) (entry : String × Option Table) : AggState :=
  match entry.2 with
  | none => st
  | some df =>
      if tableEmpty df then st
      else
        let df2 := apply_client_filter df cliente
        let ic := find_numeric_cols df2 ING_HINTS
        let cc := find_numeric_cols df2 COST_HINTS
        let ingSum := if ic.isEmpty then 0 else sumCols df2 ic
        let costSum := if cc.isEmpty then 0 else sumCols df2 cc
        AggState.mk
          (st.total_ing + ingSum)
          (st.total_cost + costSum)
          (st.total_services + count_services df2)
          (overwriteOpt (conversionOfTable df2) st.conversion)
          (overwriteOpt (lead_time_days df2) st.lead_time)
          (st.hojas ++ [(entry.1, SheetInfo.mk df2.rows.length ic cc ingSum costSum)])

/-- `analizar_datos_taller`.  The dataset is an insertion-ordered mapping
of sheet names to optional tables (a `dict` in the source; a sheet may be
`None`). -/
def analizar_datos_taller (data : List (String × Option Table)) (cliente_contiene : String) : Reporte :=
  let st := data.foldl (procesarHoja cliente_contiene) initState
  let margen := st.total_ing - st.total_cost
  let margen_pct := if st.total_ing = 0 then 0 else margen / st.total_ing * 100
  Reporte.mk
    st.total_ing
    st.total_cost
    margen
    (round2 margen_pct)
    st.total_services
    (if st.total_services = 0 then none else some (st.total_ing / (st.total_services : ℚ)))
    st.conversion
    st.lead_time
    st.hojas

/-- The filtered tables of the sheets the loop actually processes, in
iteration order. -/
def processedTables (data : List (String × Option Table)) (cliente : String) : List Table :=
  data.filterMap (fun p =>
    match p.2 with
    | none => none
    | some df => if tableEmpty df then none else some (apply_client_filter df cliente))

/-- The names of the sheets the loop actually processes. -/
def processedNames (data : List (String × Option Table)) : List String :=
  data.filterMap (fun p =>
    match p.2 with
    | none => none
    | some df => if tableEmpty df then none else some p.1)

/-! Spec-side formulations, written from the specification's words, to be
compared with the definitions translated from the source. -/

/-- Spec-side conversion estimate: count the three buckets independently;
null when the denominator `won + lost + sent` is zero, else
`round(won / denominator * 100, 2)`. -/
def conversion_spec (df : Table) : Option ℚ :=
  match estadoCol df with
  | none => none
  | some c =>
      let vals := (getCol df c).map (fun cell => toLowerStr (strCell cell))
      let won := vals.countP (fun s => containsStr s "ganad")
      let lost := vals.countP (fun s => containsStr s "perdid")
      let sent := vals.countP (fun s => containsStr s "enviad")
      if won + lost + sent = 0 then none
      else some (round2 ((won : ℚ) * 100 / ((won + lost + sent : Nat) : ℚ)))

/-- Spec-side per-row lead time delta: defined only when both dates
coerce and the whole-day delta is non-negative and under 365. -/
def qualDelta (p : Cell × Cell) : Option ℚ :=
  match toDate p.1, toDate p.2 with
  | some a, some b => if 0 ≤ b - a ∧ b - a < 365 then some (intToQ (b - a)) else none
  | _, _ => none

/-- Spec-side lead time: pair start and end cells rowwise, keep deltas
that are defined, non-negative and under 365 days, median of at least 3. -/
def lead_time_spec (df : Table) : Option ℚ :=
  match startCol df, endCol df with
  | some s, some e =>
      let deltas := (List.zip (getCol df s) (getCol df e)).filterMap qualDelta
      if 3 ≤ deltas.length then some (medianQ deltas) else none
  | _, _ => none

/-- Spec-side service count: cardinality of the set of non-missing values
of the identifier column; else rows of the first revenue column with a
strictly positive parsed value; else 0. -/
def count_services_spec (df : Table) : Nat :=
  match findIdKey ID_KEYS df with
  | some c => ((getCol df c).filter (fun x => !isMissing x)).toFinset.card
  | none =>
      match find_numeric_cols df ING_HINTS with
      | [] => 0
      | c :: _ => ((getCol df c).filterMap toNumeric).countP (fun q => decide (0 < q))

/-! Theorems. -/

/-- A one-row table whose client cell is missing. -/
def tablaClienteNaN : Table :=
  Table.mk ["Cliente"] [[Cell.blank]]

/-- Claim C1.  The code contradicts the claim: because the client column
goes through `astype(str)` before matching, a missing cell is matched as
the literal string "nan" and the `na=False` guard is dead.  Filtering the
one-missing-row table by "nan" (or, case-insensitively, by "AN") keeps
the row instead of dropping it. -/
theorem claim_c1_missing_cell_matches :
    apply_client_filter tablaClienteNaN "nan" = tablaClienteNaN
    ∧ apply_client_filter tablaClienteNaN "AN" = tablaClienteNaN := by
  constructor <;> decide

/-- Claim C2.  In every generated report, `margen` is exactly
`ingresos - costos`. -/
theorem claim_c2_margen (data : List (String × Option Table)) (c : String) :
    (analizar_datos_taller data c).margen =
      (analizar_datos_taller data c).ingresos - (analizar_datos_taller data c).costos := rfl

/-- Claim C3.  Whenever the computed revenue total is zero, the reported
`margen_pct` is exactly zero: the division is guarded. -/
theorem claim_c3_margen_pct_zero (data : List (String × Option Table)) (c : String)
    (h : (analizar_datos_taller data c).ingresos = 0) :
    (analizar_datos_taller data c).margen_pct = 0 := by
  simp only [analizar_datos_taller] at h ⊢
  rw [if_pos h]
  decide

/-- Witness for claim C3 at the empty dataset. -/
theorem claim_c3_witness :
    (analizar_datos_taller [] "").ingresos = 0
    ∧ (analizar_datos_taller [] "").margen_pct = 0 :=
  ⟨by decide, claim_c3_margen_pct_zero [] "" (by decide)⟩

/-- Claim C9.  The client filter is idempotent: filtering an
already-filtered table by the same substring returns the same rows. -/
theorem claim_c9_filter_idempotent (df : Table) (s : String) :
    apply_client_filter (apply_client_filter df s) s = apply_client_filter df s := by
  unfold apply_client_filter
  cases hs : s.isEmpty with
  | true => simp [hs]
  | false =>
      simp only [hs, Bool.false_eq_true, if_false]
      cases hidx : df.headers.findIdx? (fun c => containsStr (pyNorm c) "cliente") with
      | none => simp [hidx]
      | some i => simp [hidx, List.filter_filter]

/-- A one-sheet dataset with revenue 3 and cost 1, whose margin ratio
200/3 is not representable in 2 decimals. -/
def datasetC10 : List (String × Option Table) :=
  [("h", some (Table.mk ["total", "costo"] [[Cell.num 3, Cell.num 1]]))]

/-- Claim C10.  When the revenue total is non-zero, the reported
`margen_pct` is the ratio rounded to 2 decimal places. -/
theorem claim_c10_margen_pct_rounded (data : List (String × Option Table)) (c : String)
    (h : (analizar_datos_taller data c).ingresos ≠ 0) :
    (analizar_datos_taller data c).margen_pct =
      round2 ((analizar_datos_taller data c).margen /
        (analizar_datos_taller data c).ingresos * 100) := by
  simp only [analizar_datos_taller] at h ⊢
  rw [if_neg h]

/-- Witness for claim C10: revenue 3, cost 1 gives `margen_pct`
66.67, which differs from the exact ratio 200/3. -/
theorem claim_c10_witness :
    (analizar_datos_taller datasetC10 "").ingresos ≠ 0
    ∧ (analizar_datos_taller datasetC10 "").margen_pct =
        round2 ((analizar_datos_taller datasetC10 "").margen /
          (analizar_datos_taller datasetC10 "").ingresos * 100)
    ∧ (analizar_datos_taller datasetC10 "").margen_pct ≠
        (analizar_datos_taller datasetC10 "").margen /
          (analizar_datos_taller datasetC10 "").ingresos * 100 :=
  ⟨by decide, claim_c10_margen_pct_rounded datasetC10 "" (by decide), by decide⟩

/-- The two guard shapes of the conversion estimate agree. -/
lemma conv_if_eq (g p e : Nat) :
    (if g + p + e > 0 then some (round2 ((g : ℚ) / ((g + p + e : Nat) : ℚ) * 100)) else none)
    = (if g + p + e = 0 then none
       else some (round2 ((g : ℚ) * 100 / ((g + p + e : Nat) : ℚ)))) := by
  by_cases hd : g + p + e = 0
  · simp [hd]
  · have hpos : 0 < g + p + e := Nat.pos_of_ne_zero hd
    rw [if_pos hpos, if_neg hd, div_mul_eq_mul_div]

def tablaEstado : Table :=
  Table.mk ["Estado"]
    [[Cell.str "Ganado"], [Cell.str "Perdido"], [Cell.str "Enviado"], [Cell.str "ganado"]]

/-- Claim C5.  The per-sheet conversion estimate counts the won, lost and
sent buckets independently, is null exactly when the denominator
`won + lost + sent` is zero, and otherwise rounds `won/denominator*100`
to 2 decimals; the four-status example gives 50. -/
theorem claim_c5_conversion :
    (∀ df, conversionOfTable df = conversion_spec df)
    ∧ conversionOfTable tablaEstado = some 50 := by
  constructor
  · intro df
    unfold conversionOfTable conversion_spec
    cases hc : estadoCol df with
    | none => rfl
    | some c => exact conv_if_eq _ _ _
  · decide

/-- The positive-cell count equals the positive count over the parsed
values. -/
lemma countP_posNum_filterMap (l : List Cell) :
    l.countP posNum = (l.filterMap toNumeric).countP (fun q => decide (0 < q)) := by
  induction l with
  | nil => rfl
  | cons x t ih =>
      cases hx : toNumeric x with
      | none => simp [List.countP_cons, List.filterMap_cons, hx, posNum, ih]
      | some q => simp [List.countP_cons, List.filterMap_cons, hx, posNum, ih]

def tablaOrden : Table :=
  Table.mk ["Orden"] [[Cell.num 1], [Cell.num 1], [Cell.num 2], [Cell.num 3]]

/-- Claim C6.  `_count_services` counts the distinct non-missing values
of the first identifier-matched column, falls back to the positive-value
row count of the first revenue column, and 0 with no revenue column
either; the "Orden" example with values 1,1,2,3 gives 3. -/
theorem claim_c6_count_services :
    (∀ df, count_services df = count_services_spec df)
    ∧ count_services tablaOrden = 3 := by
  constructor
  · intro df
    unfold count_services count_services_spec
    cases h1 : findIdKey ID_KEYS df with
    | some c =>
        show nunique (getCol df c)
          = ((getCol df c).filter (fun x => !isMissing x)).toFinset.card
        unfold nunique
        rw [List.card_toFinset]
    | none =>
        cases h2 : find_numeric_cols df ING_HINTS with
        | nil => rfl
        | cons c rest => exact countP_posNum_filterMap _
  · decide

/-- The masked delta series of `_lead_time_days`, cast to ℚ, is the
rowwise qualified-delta list of the spec. -/
lemma deltas_map_cast (xs ys : List Cell) :
    (((deltaSeries xs ys).filterMap id).filter
        (fun d => decide (0 ≤ d) && decide (d < 365))).map intToQ
    = (xs.zip ys).filterMap qualDelta := by
  induction xs generalizing ys with
  | nil => cases ys <;> rfl
  | cons x xt ih =>
      cases ys with
      | nil => rfl
      | cons y yt =>
          simp only [deltaSeries, List.zipWith_cons_cons, List.zip_cons_cons,
            List.filterMap_cons, id_eq] at *
          cases hx : toDate x with
          | none =>
              cases hy : toDate y <;>
                simp only [qualDelta, hx, List.filterMap_cons, id_eq] <;> exact ih yt
          | some a =>
              cases hy : toDate y with
              | none => simp only [qualDelta, hx, hy, List.filterMap_cons, id_eq]; exact ih yt
              | some b =>
                  simp only [qualDelta, hx, hy, List.filterMap_cons, id_eq]
                  by_cases hcond : 0 ≤ b - a ∧ b - a < 365
                  · rw [if_pos hcond]
                    have hb : (decide (0 ≤ b - a) && decide (b - a < 365)) = true := by
                      simp [hcond.1, hcond.2]
                    simp only [List.filter_cons, hb, if_true, List.map_cons]
                    rw [ih yt]
                  · rw [if_neg hcond]
                    have hb : (decide (0 ≤ b - a) && decide (b - a < 365)) = false := by
                      rcases not_and_or.mp hcond with h | h <;> simp [h]
                    simp only [List.filter_cons, hb]
                    exact ih yt

def tablaFechas : Table :=
  Table.mk ["Fecha Ingreso", "Fecha Salida"]
    [[Cell.date 0, Cell.date 2], [Cell.date 10, Cell.date 14], [Cell.date 20, Cell.date 26]]

/-- Claim C4.  `_lead_time_days` is null when either date column is
missing; otherwise it keeps exactly the defined, non-negative, under-365
per-row day deltas and returns their median when at least 3 remain, null
otherwise; the three-row example with deltas 2, 4, 6 gives 4. -/
theorem claim_c4_lead_time :
    (∀ df, lead_time_days df = lead_time_spec df)
    ∧ lead_time_days tablaFechas = some 4 := by
  constructor
  · intro df
    unfold lead_time_days lead_time_spec
    cases hs : startCol df with
    | none => rfl
    | some s =>
        cases he : endCol df with
        | none => rfl
        | some e =>
            show (if 3 ≤ (qualifyingDeltas df s e).length
                  then some (medianQ ((qualifyingDeltas df s e).map intToQ))
                  else none)
              = (if 3 ≤ ((List.zip (getCol df s) (getCol df e)).filterMap qualDelta).length
                 then some (medianQ ((List.zip (getCol df s) (getCol df e)).filterMap qualDelta))
                 else none)
            rw [← deltas_map_cast (getCol df s) (getCol df e)]
            unfold qualifyingDeltas
            rw [List.length_map]
  · decide

/-- Left fold of the overwrite step. -/
def lastWins (init : Option ℚ) : List (Option ℚ) → Option ℚ
  | [] => init
  | o :: t => lastWins (overwriteOpt o init) t

lemma getLast?_cons_overwrite (v : α) (xs : List α) :
    (v :: xs).getLast? = match xs.getLast? with
      | some w => some w
      | none => some v := by
  induction xs generalizing v with
  | nil => rfl
  | cons w ws ih =>
      have h := ih w
      rw [List.getLast?_cons_cons, h]
      cases hg : ws.getLast? <;> rfl

/-- The overwrite fold keeps the last non-null element. -/
lemma lastWins_eq_getLast (l : List (Option ℚ)) (init : Option ℚ) :
    lastWins init l = overwriteOpt ((l.filterMap id).getLast?) init := by
  induction l generalizing init with
  | nil => rfl
  | cons o t ih =>
      cases o with
      | none =>
          show lastWins init t = _
          rw [ih init]
          rfl
      | some v =>
          show lastWins (some v) t = _
          rw [ih (some v)]
          simp only [List.filterMap_cons, id_eq]
          rw [getLast?_cons_overwrite v (t.filterMap id)]
          cases hg : (t.filterMap id).getLast? <;> rfl

/-- The three stateful fields of the sheet loop, characterised over the
processed sheets. -/
lemma foldl_fields (c : String) (l : List (String × Option Table)) (st : AggState) :
    (l.foldl (procesarHoja c) st).conversion
        = lastWins st.conversion ((processedTables l c).map conversionOfTable)
    ∧ (l.foldl (procesarHoja c) st).lead_time
        = lastWins st.lead_time ((processedTables l c).map lead_time_days)
    ∧ (l.foldl (procesarHoja c) st).hojas.map Prod.fst
        = st.hojas.map Prod.fst ++ processedNames l := by
  induction l generalizing st with
  | nil => exact ⟨rfl, rfl, (List.append_nil _).symm⟩
  | cons p t ih =>
      obtain ⟨name, odf⟩ := p
      cases odf with
      | none =>
          have e1 : procesarHoja c st (name, none) = st := rfl
          have e2 : processedTables ((name, none) :: t) c = processedTables t c := rfl
          have e3 : processedNames ((name, none) :: t) = processedNames t := rfl
          rw [List.foldl_cons, e1, e2, e3]
          exact ih st
      | some df =>
          cases hemp : tableEmpty df with
          | true =>
              have e1 : procesarHoja c st (name, some df) = st := by
                simp [procesarHoja, hemp]
              have e2 : processedTables ((name, some df) :: t) c = processedTables t c := by
                simp [processedTables, hemp]
              have e3 : processedNames ((name, some df) :: t) = processedNames t := by
                simp [processedNames, hemp]
              rw [List.foldl_cons, e1, e2, e3]
              exact ih st
          | false =>
              have e2 : processedTables ((name, some df) :: t) c
                  = apply_client_filter df c :: processedTables t c := by
                simp [processedTables, hemp]
              have e3 : processedNames ((name, some df) :: t) = name :: processedNames t := by
                simp [processedNames, hemp]
              rw [List.foldl_cons, e2, e3]
              have h := ih (procesarHoja c st (name, some df))
              have hc2 : (procesarHoja c st (name, some df)).conversion
                  = overwriteOpt (conversionOfTable (apply_client_filter df c)) st.conversion := by
                simp [procesarHoja, hemp]
              have hl2 : (procesarHoja c st (name, some df)).lead_time
                  = overwriteOpt (lead_time_days (apply_client_filter df c)) st.lead_time := by
                simp [procesarHoja, hemp]
              have hh2 : (procesarHoja c st (name, some df)).hojas.map Prod.fst
                  = st.hojas.map Prod.fst ++ [name] := by
                simp [procesarHoja, hemp]
              refine ⟨?_, ?_, ?_⟩
              · rw [h.1, hc2]
                rfl
              · rw [h.2.1, hl2]
                rfl
              · rw [h.2.2, hh2, List.append_assoc]
                rfl

/-- Claim C7.  The report's conversion and lead-time fields each hold the
value of the last processed sheet whose estimator was non-null; null
results never overwrite, and nothing is averaged. -/
theorem claim_c7_last_non_null (data : List (String × Option Table)) (c : String) :
    (analizar_datos_taller data c).conversion_pct
        = (((processedTables data c).map conversionOfTable).filterMap id).getLast?
    ∧ (analizar_datos_taller data c).lead_time_mediano_dias
        = (((processedTables data c).map lead_time_days).filterMap id).getLast? := by
  have h := foldl_fields c data initState
  constructor
  · show (data.foldl (procesarHoja c) initState).conversion = _
    rw [h.1, lastWins_eq_getLast]
    cases hg : (((processedTables data c).map conversionOfTable).filterMap id).getLast? <;> rfl
  · show (data.foldl (procesarHoja c) initState).lead_time = _
    rw [h.2.1, lastWins_eq_getLast]
    cases hg : (((processedTables data c).map lead_time_days).filterMap id).getLast? <;> rfl

/-- Missing cells contribute nothing to a column sum. -/
lemma sum_getD_filterMap (l : List Cell) :
    (l.map (fun cell => (toNumeric cell).getD 0)).sum = (l.filterMap toNumeric).sum := by
  induction l with
  | nil => rfl
  | cons x t ih =>
      cases hx : toNumeric x with
      | none => simp [List.filterMap_cons, hx, ih]
      | some q => simp [List.filterMap_cons, hx, ih]


/-!
Error-aware layer.  Pandas `df[c]` yields a Series only when the label
`c` is unique; with a duplicated label it yields a two-column DataFrame,
on which the operations the source applies raise despite
`errors="coerce"`: `pd.to_numeric` (TypeError, the dtype check precedes
coercion), `.astype(str).str` (AttributeError), `int(nunique())`
(TypeError) and `pd.to_datetime` (ValueError).  The `Except`-valued
definitions below embed those selection sites faithfully; on every table
whose labels are unique they agree with the total model above.
-/

/-- The label `c` is borne by two or more columns of `df`. -/
def dupLabel (df : Table) (c : String) : Bool :=
  decide (2 ≤ df.headers.countP (fun h => h == c))

/-- `pd.to_numeric(df[c], errors="coerce")`: raises TypeError when the
selection is a DataFrame (duplicated label). -/
def to_numeric_colE (df : Table) (c : String) : Except String (List (Option ℚ)) :=
  if dupLabel df c then Except.error "TypeError: pd.to_numeric received a DataFrame"
  else Except.ok ((getCol df c).map toNumeric)

/-- `_apply_client_filter` with the raising selection site: the matched
client column is selected with `df[cliente_col]`, so a duplicated client
label raises at the `.str` accessor. -/
def apply_client_filterE (df : Table) (client_substr : String) : Except String Table :=
  if client_substr.isEmpty then Except.ok df
  else
    match df.headers.findIdx? (fun c => containsStr (pyNorm c) "cliente") with
    | none => Except.ok df
    | some i =>
        if dupLabel df (df.headers.getD i "") then
          Except.error "AttributeError: DataFrame has no attribute str"
        else
          Except.ok (Table.mk df.headers
            (df.rows.filter (fun r => containsCI (strCell (r.getD i Cell.blank)) client_substr)))

/-- `_find_numeric_cols` column loop with the raising `pd.to_numeric`
site; visits the headers in order and stops at the first raise. -/
def find_numeric_colsGo (df : Table) (keywords : List String) : List String → Except String (List String)
  | [] => Except.ok []
  | c :: rest =>
      if keywords.any (fun k => containsStr (pyNorm c) k) then
        match to_numeric_colE df c with
        | Except.error e => Except.error e
        | Except.ok s =>
            match find_numeric_colsGo df keywords rest with
            | Except.error e => Except.error e
            | Except.ok tail =>
                Except.ok (if s.countP (fun o => o.isSome) > 0 then c :: tail else tail)
      else find_numeric_colsGo df keywords rest

def find_numeric_colsE (df : Table) (keywords : List String) : Except String (List String) :=
  find_numeric_colsGo df keywords df.headers

/-- `_count_services` with the raising sites: `int(df[c].nunique())` on a
duplicated identifier label raises; the fallback column already passed
`pd.to_numeric` inside `_find_numeric_cols`, so it is unique. -/
def count_servicesE (df : Table) : Except String Nat :=
  match findIdKey ID_KEYS df with
  | some c =>
      if dupLabel df c then Except.error "TypeError: int on a two-element Series"
      else Except.ok (nunique (getCol df c))
  | none =>
      match find_numeric_colsE df ING_HINTS with
      | Except.error e => Except.error e
      | Except.ok cols =>
          match cols with
          | [] => Except.ok 0
          | c :: _ => Except.ok ((getCol df c).countP posNum)

/-- The conversion block with the raising site: a duplicated status label
raises at `.astype(str).str`. -/
def conversionE (df : Table) : Except String (Option ℚ) :=
  match estadoCol df with
  | none => Except.ok none
  | some c =>
      if dupLabel df c then
        Except.error "AttributeError: DataFrame has no attribute str"
      else Except.ok (conversionOfTable df)

/-- `_lead_time_days` with the raising sites: `pd.to_datetime(df[col])`
on a duplicated date label raises. -/
def lead_timeE (df : Table) : Except String (Option ℚ) :=
  match startCol df, endCol df with
  | some s, some e =>
      if dupLabel df s then Except.error "ValueError: pd.to_datetime on a DataFrame"
      else if dupLabel df e then Except.error "ValueError: pd.to_datetime on a DataFrame"
      else Except.ok (lead_time_days df)
  | _, _ => Except.ok none

/-- One iteration of the sheet loop with every raising site, in the
code's execution order: client filter, revenue columns, cost columns,
service count, conversion, lead time. -/
def procesarHojaE (cliente : String) (st : AggState) (entry : String × Option Table) :
    Except String AggState :=
  match entry.2 with
  | none => Except.ok st
  | some df =>
      if tableEmpty df then Except.ok st
      else
        match apply_client_filterE df cliente with
        | Except.error e => Except.error e
        | Except.ok df2 =>
            match find_numeric_colsE df2 ING_HINTS with
            | Except.error e => Except.error e
            | Except.ok ic =>
                match find_numeric_colsE df2 COST_HINTS with
                | Except.error e => Except.error e
                | Except.ok cc =>
                    match count_servicesE df2 with
                    | Except.error e => Except.error e
                    | Except.ok sv =>
                        match conversionE df2 with
                        | Except.error e => Except.error e
                        | Except.ok cv =>
                            match lead_timeE df2 with
                            | Except.error e => Except.error e
                            | Except.ok lt =>
                                Except.ok (AggState.mk
                                  (st.total_ing + (if ic.isEmpty then 0 else sumCols df2 ic))
                                  (st.total_cost + (if cc.isEmpty then 0 else sumCols df2 cc))
                                  (st.total_services + sv)
                                  (overwriteOpt cv st.conversion)
                                  (overwriteOpt lt st.lead_time)
                                  (st.hojas ++ [(entry.1, SheetInfo.mk df2.rows.length ic cc
                                    (if ic.isEmpty then 0 else sumCols df2 ic)
                                    (if cc.isEmpty then 0 else sumCols df2 cc))]))

/-- The sheet loop with error propagation. -/
def analizarGoE (cliente : String) : List (String × Option Table) → AggState → Except String AggState
  | [], st => Except.ok st
  | p :: t, st =>
      match procesarHojaE cliente st p with
      | Except.error e => Except.error e
      | Except.ok st2 => analizarGoE cliente t st2

/-- `analizar_datos_taller` with the raising selection sites modelled. -/
def analizar_datos_tallerE (data : List (String × Option Table)) (cliente_contiene : String) :
    Except String Reporte :=
  match analizarGoE cliente_contiene data initState with
  | Except.error e => Except.error e
  | Except.ok st =>
      Except.ok (Reporte.mk
        st.total_ing
        st.total_cost
        (st.total_ing - st.total_cost)
        (round2 (if st.total_ing = 0 then 0
                 else (st.total_ing - st.total_cost) / st.total_ing * 100))
        st.total_services
        (if st.total_services = 0 then none
         else some (st.total_ing / (st.total_services : ℚ)))
        st.conversion
        st.lead_time
        st.hojas)

/-- Every table of the dataset that is present has pairwise-distinct
column labels. -/
def nodupHeaders : Option Table → Bool
  | none => true
  | some df => decide df.headers.Nodup

/-- The client filter never changes the header row. -/
lemma apply_client_filter_headers (df : Table) (c : String) :
    (apply_client_filter df c).headers = df.headers := by
  unfold apply_client_filter
  cases hs : c.isEmpty with
  | true => simp [hs]
  | false =>
      simp only [hs, Bool.false_eq_true, if_false]
      cases hidx : df.headers.findIdx? (fun x => containsStr (pyNorm x) "cliente") with
      | none => simp [hidx]
      | some i => simp [hidx]

lemma countP_beq_le_one {l : List String} (h : l.Nodup) (c : String) :
    l.countP (fun x => x == c) ≤ 1 := by
  induction l with
  | nil => simp
  | cons a t ih =>
      rw [List.countP_cons]
      have h2 := List.nodup_cons.mp h
      by_cases hac : (a == c) = true
      · have heq : a = c := by exact eq_of_beq hac
        have hcnin : c ∉ t := heq ▸ h2.1
        have h0 : t.countP (fun x => x == c) = 0 := by
          rw [List.countP_eq_zero]
          intro x hx hxc
          exact hcnin (eq_of_beq hxc ▸ hx)
        rw [h0, if_pos hac]
      · rw [if_neg hac]
        simpa using ih h2.2

/-- Unique labels mean no selection site sees a duplicated label. -/
lemma dupLabel_false_of_nodup {df : Table} (h : df.headers.Nodup) (c : String) :
    dupLabel df c = false := by
  unfold dupLabel
  rw [decide_eq_false_iff_not]
  have := countP_beq_le_one h c
  omega

lemma apply_client_filterE_ok (df : Table) (c : String)
    (hd : ∀ x, dupLabel df x = false) :
    apply_client_filterE df c = Except.ok (apply_client_filter df c) := by
  unfold apply_client_filterE apply_client_filter
  cases hs : c.isEmpty with
  | true => simp [hs]
  | false =>
      simp only [hs, Bool.false_eq_true, if_false]
      cases hidx : df.headers.findIdx? (fun x => containsStr (pyNorm x) "cliente") with
      | none => simp [hidx]
      | some i => simp [hidx, hd]

lemma find_numeric_colsGo_ok (df : Table) (kws : List String)
    (hd : ∀ x, dupLabel df x = false) (l : List String) :
    find_numeric_colsGo df kws l
      = Except.ok (l.filter (fun c =>
          kws.any (fun k => containsStr (pyNorm c) k) &&
          ((getCol df c).countP (fun cell => (toNumeric cell).isSome) > 0))) := by
  induction l with
  | nil => rfl
  | cons c rest ih =>
      unfold find_numeric_colsGo to_numeric_colE
      rw [List.filter_cons]
      by_cases hk : kws.any (fun k => containsStr (pyNorm c) k) = true
      · simp only [hk, if_true, hd c, Bool.false_eq_true, if_false, ih]
        have hmap : ((getCol df c).map toNumeric).countP (fun o => o.isSome)
            = (getCol df c).countP (fun cell => (toNumeric cell).isSome) := by
          rw [List.countP_map]
          rfl
        by_cases hcnt : (getCol df c).countP (fun cell => (toNumeric cell).isSome) > 0
        · simp [hmap, hcnt, hk]
        · simp [hmap, hcnt, hk]
      · have hk' : kws.any (fun k => containsStr (pyNorm c) k) = false :=
          Bool.not_eq_true _ ▸ (by simpa using hk)
        simp only [hk', Bool.false_eq_true, if_false, Bool.false_and, ih]

lemma find_numeric_colsE_ok (df : Table) (kws : List String)
    (hd : ∀ x, dupLabel df x = false) :
    find_numeric_colsE df kws = Except.ok (find_numeric_cols df kws) := by
  unfold find_numeric_colsE find_numeric_cols
  exact find_numeric_colsGo_ok df kws hd df.headers

lemma count_servicesE_ok (df : Table) (hd : ∀ x, dupLabel df x = false) :
    count_servicesE df = Except.ok (count_services df) := by
  unfold count_servicesE count_services
  cases h1 : findIdKey ID_KEYS df with
  | some c => simp [hd c]
  | none =>
      rw [find_numeric_colsE_ok df ING_HINTS hd]
      cases h2 : find_numeric_cols df ING_HINTS <;> rfl

lemma conversionE_ok (df : Table) (hd : ∀ x, dupLabel df x = false) :
    conversionE df = Except.ok (conversionOfTable df) := by
  unfold conversionE
  cases hc : estadoCol df with
  | none =>
      show Except.ok none = Except.ok (conversionOfTable df)
      unfold conversionOfTable
      rw [hc]
  | some c => simp [hd c]

lemma lead_timeE_ok (df : Table) (hd : ∀ x, dupLabel df x = false) :
    lead_timeE df = Except.ok (lead_time_days df) := by
  unfold lead_timeE
  cases hs : startCol df with
  | none =>
      show Except.ok none = Except.ok (lead_time_days df)
      unfold lead_time_days
      rw [hs]
  | some s =>
      cases he : endCol df with
      | none =>
          show Except.ok none = Except.ok (lead_time_days df)
          unfold lead_time_days
          rw [hs, he]
      | some e => simp [hd s, hd e]

lemma procesarHojaE_ok (c : String) (st : AggState) (name : String) (df : Table)
    (hnd : df.headers.Nodup) :
    procesarHojaE c st (name, some df) = Except.ok (procesarHoja c st (name, some df)) := by
  have hd : ∀ x, dupLabel df x = false := dupLabel_false_of_nodup hnd
  have hnd2 : (apply_client_filter df c).headers.Nodup := by
    rw [apply_client_filter_headers]
    exact hnd
  have hd2 : ∀ x, dupLabel (apply_client_filter df c) x = false :=
    dupLabel_false_of_nodup hnd2
  unfold procesarHojaE procesarHoja
  cases hemp : tableEmpty df with
  | true => simp [hemp]
  | false =>
      simp only [hemp, Bool.false_eq_true, if_false,
        apply_client_filterE_ok df c hd,
        find_numeric_colsE_ok (apply_client_filter df c) ING_HINTS hd2,
        find_numeric_colsE_ok (apply_client_filter df c) COST_HINTS hd2,
        count_servicesE_ok (apply_client_filter df c) hd2,
        conversionE_ok (apply_client_filter df c) hd2,
        lead_timeE_ok (apply_client_filter df c) hd2]

lemma analizarGoE_ok (c : String) (l : List (String × Option Table))
    (hall : l.all (fun p => nodupHeaders p.2) = true) (st : AggState) :
    analizarGoE c l st = Except.ok (l.foldl (procesarHoja c) st) := by
  induction l generalizing st with
  | nil => rfl
  | cons p t ih =>
      rw [List.all_cons, Bool.and_eq_true] at hall
      obtain ⟨name, odf⟩ := p
      cases odf with
      | none =>
          show analizarGoE c t st = _
          rw [List.foldl_cons]
          exact ih hall.2 st
      | some df =>
          have hnd : df.headers.Nodup := of_decide_eq_true hall.1
          unfold analizarGoE
          rw [procesarHojaE_ok c st name df hnd, List.foldl_cons]
          exact ih hall.2 _

/-- A one-sheet dataset with a duplicated revenue-hinted column label. -/
def datasetDupTotal : List (String × Option Table) :=
  [("hoja", some (Table.mk ["Total", "Total"] [[Cell.num 1, Cell.num 2]]))]

/-- Claim C8.  The aggregator is not exception-free on in-scope inputs:
with a duplicated hint-matched column label, `df[c]` is a two-column
DataFrame and `pd.to_numeric` raises TypeError despite `errors="coerce"`,
contradicting the deliberate never-fail design.  With pairwise-distinct
column labels per table, the error-aware aggregator raises nothing and
returns exactly the report of the total model, whose unparseable cells
degrade to missing and whose absent columns degrade to null or zero. -/
theorem claim_c8_duplicate_label_raises :
    analizar_datos_tallerE datasetDupTotal ""
      = Except.error "TypeError: pd.to_numeric received a DataFrame"
    ∧ ∀ (data : List (String × Option Table)) (c : String),
        data.all (fun p => nodupHeaders p.2) = true →
        analizar_datos_tallerE data c = Except.ok (analizar_datos_taller data c) := by
  constructor
  · rfl
  · intro data c hall
    unfold analizar_datos_tallerE
    rw [analizarGoE_ok c data hall initState]
    rfl

/-- A one-sheet dataset with unique column labels. -/
def datasetC8ok : List (String × Option Table) :=
  [("a", some (Table.mk ["Total", "Costo"] [[Cell.num 5, Cell.num 2]]))]

/-- Witness for claim C8 at a unique-labelled dataset. -/
theorem claim_c8_witness :
    datasetC8ok.all (fun p => nodupHeaders p.2) = true
    ∧ analizar_datos_tallerE datasetC8ok ""
        = Except.ok (analizar_datos_taller datasetC8ok "") :=
  ⟨by decide, claim_c8_duplicate_label_raises.2 datasetC8ok "" (by decide)⟩
